import Mathlib

/-!
Shallow embedding of the bitcoinsimple aggregation gateway.

The repository has two FastAPI gateway variants plus one tiny Flask app:
* `btc1.py` — the Redis-cached gateway.  Every handler is embedded here as a
  pure Lean function `btc1Get...` taking the request parameters, the current
  time (`now`, seconds; used only for cache expiry), the string produced by
  `iso_now()` (`nowStr`), the Redis cache state, and an oracle record giving
  the outcome of each upstream call the handler can make.  It returns the
  handler outcome (an `Except` of the raised `HTTPException` or an unhandled
  exception, versus the JSON value serialized to the client), the cache state
  after the request, and the ordered trace of upstream calls attempted.
* `main.py` — the uncached gateway; handlers `mainGet...` are embedded the
  same way minus the cache.

Conventions of the embedding:
* Python floats are modelled as `ℚ` (all arithmetic in the claims is exact
  dyadic arithmetic), Python ints as `ℤ`/`ℕ`.
* A JSON payload field read with `d["k"]` (KeyError when absent) that no
  claim exercises in its absent form is modelled as a plain structure field;
  fields read with `d.get("k", default)` are modelled as `Option` fields.
* `datetime.fromtimestamp(..).isoformat()` and the halving ETA formatting are
  wall-clock string formatting; handlers abstract them as a function
  parameter `fmt : ℕ → String` (the claims never inspect these strings).
* Redis `setex key ttl (json.dumps v)` stores the serialized response; since
  `json.loads (json.dumps v) = v` on these payloads and `json.dumps` output
  is a nonempty string (so the `if cached:` truthiness test is exactly a
  presence test), the cache is modelled as storing the JSON value itself
  together with its absolute expiry time.
-/

/-- The JSON values this gateway produces and caches. -/
inductive Json where
  | str (s : String)
  | num (q : ℚ)
  | arr (xs : List Json)
  | obj (fields : List (String × Json))

/-- Errors of one upstream HTTP call: an exception raised by `requests.get`
itself (timeout / connection failure), or one raised by `raise_for_status`
on a non-2xx response.  `requests.RequestException` covers both. -/
inductive UpErr where
  | transport
  | badStatus
deriving DecidableEq, Repr

/-- One upstream call, identified by provider and parameters (the call spec,
abstracting the literal URL). -/
inductive UpCall where
  | cgGetPrice (fiat : String)
  | cgSimplePrice (fiat : String)
  | cgCoinById (id : String)
  | cgCoinHistory (id : String) (date : String)
  | bsAddress (addr : String)
  | bsTx (txid : String)
  | bsTipHeight
  | bsBlockHeight (h : ℕ)
  | bsBlock (hash : String)
  | bsMempool
  | bsFeeEstimates
  | bcHashRate
  | bcDifficulty
deriving DecidableEq, Repr

/-- Outcome of a handler: either a raised `HTTPException(status, detail)`,
or an exception that escaped the handler body (FastAPI then returns a
500-equivalent internal error). -/
inductive HErr where
  | httpException (status : ℕ) (detail : String)
  | unhandled
deriving DecidableEq, Repr

/-- Python `str.lower()` restricted to the ASCII case mapping (fiat codes
are ASCII). -/
def pyLower (s : String) : String := ⟨s.data.map Char.toLower⟩

/-- Python `str.split(sep)` for a one-character separator. -/
def pySplit (sep : Char) (s : String) : List String :=
  (s.data.splitOn sep).map (fun cs => ⟨cs⟩)

/-- The Redis response cache: entries `(key, value, expiresAt)`. -/
abbrev Cache := List (String × Json × ℕ)

/-- `redis_client.get key` at time `now`: returns the stored value if an
entry for `key` exists and is unexpired. -/
def cacheGet (c : Cache) (now : ℕ) (k : String) : Option Json :=
  match c.find? (fun e => e.1 == k) with
  | some (_, v, exp) => if now < exp then some v else none
  | none => none

/-- `redis_client.setex key ttl v` at time `now`: unconditional overwrite
with absolute expiry `now + ttl`. -/
def cacheSetex (c : Cache) (now : ℕ) (k : String) (ttl : ℕ) (v : Json) : Cache :=
  (k, v, now + ttl) :: c.filter (fun e => e.1 != k)

/-- `HALVING_INTERVAL = 210000` (both gateways). -/
def HALVING_INTERVAL : ℕ := 210000

/-- The block-reward expression inlined at `btc1.py:188`, `btc1.py:213`,
`btc1.py:354` and `main.py:148-149`:
`50 / (2 ** (height // HALVING_INTERVAL))`.  Block heights are the
non-negative integers delivered by the explorer, so Python floor division
agrees with `Nat` division. -/
def blockReward (h : ℕ) : ℚ := 50 / 2 ^ (h / HALVING_INTERVAL)

/-- Result of one `btc1.py` handler invocation. -/
structure HandlerResult where
  result : Except HErr Json
  cache : Cache
  calls : List UpCall

/-- Result of one `main.py` handler invocation (no cache). -/
structure HandlerResultNC where
  result : Except HErr Json
  calls : List UpCall

/-! ### /price (btc1.py lines 81-100) -/

/-- Oracle for `cg.get_price(ids=bitcoin, vs_currencies=fiat,
include_24hr_change=True)`: a raised exception, or the response dict; the
`Option` is the presence of the `bitcoin` key, the association list the
inner currency dict. -/
structure PriceUpstream where
  cg : Except UpErr (Option (List (String × ℚ)))

/-- Serialized response of the price endpoint. -/
def priceRespJson (priceKey : String) (p ch : ℚ) (ts : String) : Json :=
  .obj [("price_" ++ priceKey, .num p),
        ("change_24h_percent", .num ch),
        ("timestamp", .str ts),
        ("source", .str "coingecko")]

/-- `get_price` (btc1.py lines 81-100).  Only `KeyError` is caught in the
try block (`except KeyError: raise HTTPException(400, ...)`); an exception
from the CoinGecko client escapes the handler. -/
def btc1GetPrice (fiat : String) (now : ℕ) (nowStr : String) (cache : Cache)
    (up : PriceUpstream) : HandlerResult :=
  let cacheKey := "price:" ++ pyLower fiat
  match cacheGet cache now cacheKey with
  | some v => ⟨.ok v, cache, []⟩
  | none =>
    match up.cg with
    | .error _ => ⟨.error .unhandled, cache, [.cgGetPrice fiat]⟩
    | .ok data =>
      let priceKey := pyLower fiat
      match data.bind (fun d => d.lookup priceKey),
            data.bind (fun d => d.lookup (priceKey ++ "_24h_change")) with
      | some p, some ch =>
        let resp := priceRespJson priceKey p ch nowStr
        ⟨.ok resp, cacheSetex cache now cacheKey 10 resp, [.cgGetPrice fiat]⟩
      | _, _ =>
        ⟨.error (.httpException 400 "Invalid fiat currency"), cache, [.cgGetPrice fiat]⟩

/-! ### /balance/{address} (btc1.py lines 110-127, no caching) -/

/-- Payload of `GET blockstream.info/api/address/{address}`: the
`chain_stats` fields the handler reads.  `funded_txo_sum`, `spent_txo_sum`
and `tx_count` are read with direct indexing; `last_tx_timestamp` with
`.get`. -/
structure AddrData where
  funded_txo_sum : ℤ
  spent_txo_sum : ℤ
  tx_count : ℤ
  last_tx_timestamp : Option ℕ

/-- Oracle for the two upstream calls of `get_balance`.  `price` is
`cg.get_price(ids=bitcoin, vs_currencies=usd)` — the `Option` is the
presence of the `bitcoin`/`usd` keys. -/
structure BalanceUpstream where
  addr : Except UpErr AddrData
  price : Except UpErr (Option ℚ)

/-- Serialized response of the balance endpoint. -/
def balanceRespJson (address : String) (btc usd : ℚ) (txc : ℤ) (lastTx : String) : Json :=
  .obj [("address", .str address),
        ("balance_btc", .num btc),
        ("balance_usd", .num usd),
        ("tx_count", .num txc),
        ("last_tx", .str lastTx)]

/-- The shared idiom `datetime.fromtimestamp(t).isoformat()+Z if
d.get(key) else "N/A"` (balance `last_tx`, tx `timestamp`) — Python
truthiness, so a missing field or a zero timestamp both give `"N/A"`. -/
def tsOrNA (fmt : ℕ → String) (t : Option ℕ) : String :=
  match t with
  | some ts => if ts ≠ 0 then fmt ts else "N/A"
  | none => "N/A"

/-- `get_balance` (btc1.py lines 110-127).  Any `requests.RequestException`
inside the try block — including one raised by the auxiliary CoinGecko
price call — is mapped to `HTTPException(400, "Invalid address")`; a
`KeyError` on the price payload escapes the handler.  The price lookup is a
direct upstream call: the handler never touches the Redis cache. -/
def btc1GetBalance (address : String) (fmt : ℕ → String)
    (up : BalanceUpstream) : HandlerResultNC :=
  match up.addr with
  | .error _ =>
    ⟨.error (.httpException 400 "Invalid address"), [.bsAddress address]⟩
  | .ok data =>
    match up.price with
    | .error _ =>
      ⟨.error (.httpException 400 "Invalid address"),
       [.bsAddress address, .cgSimplePrice "usd"]⟩
    | .ok none =>
      ⟨.error .unhandled, [.bsAddress address, .cgSimplePrice "usd"]⟩
    | .ok (some price) =>
      let balanceSats : ℤ := data.funded_txo_sum - data.spent_txo_sum
      ⟨.ok (balanceRespJson address ((balanceSats : ℚ) / 100000000)
              (((balanceSats : ℚ) / 100000000) * price) data.tx_count
              (tsOrNA fmt data.last_tx_timestamp)),
       [.bsAddress address, .cgSimplePrice "usd"]⟩

/-! ### /tx/{txid} (btc1.py lines 138-163, no caching) -/

/-- The `status` object of the transaction payload.  `confirmed` is read
with direct indexing, `block_height` both directly (line 150, confirmed
branch) and via `.get(.., 0)` (line 156), `block_time` via `.get`. -/
structure TxStatus where
  confirmed : Bool
  block_height : Option ℕ
  block_time : Option ℕ

/-- The transaction payload fields read by the handler. -/
structure TxData where
  status : TxStatus
  vout : List ℤ
  fee : ℚ

/-- Oracle for `get_tx`: the transaction fetch and — only in the confirmed
branch — the chain-tip fetch, whose body is parsed with `int(..)` (the
`Option` is `none` when the text is not an integer, making the `ValueError`
escape the handler). -/
structure TxUpstream where
  tx : Except UpErr TxData
  tip : Except UpErr (Option ℕ)

/-- Serialized response of the transaction endpoint. -/
def txRespJson (txid : String) (bh : ℕ) (conf : ℤ) (fee val : ℚ) (ts : String) : Json :=
  .obj [("txid", .str txid),
        ("block_height", .num bh),
        ("confirmations", .num conf),
        ("fee_btc", .num fee),
        ("value_btc", .num val),
        ("timestamp", .str ts)]

/-- `get_tx` (btc1.py lines 138-163).  For a confirmed transaction the
handler fetches the live chain tip and computes
`confirmations = tip_height - status["block_height"] + 1`; for an
unconfirmed one, `confirmations = 0` with no tip fetch. -/
def btc1GetTx (txid : String) (fmt : ℕ → String) (up : TxUpstream) : HandlerResultNC :=
  match up.tx with
  | .error _ => ⟨.error (.httpException 400 "Invalid txid"), [.bsTx txid]⟩
  | .ok data =>
    let finish (conf : ℤ) (calls : List UpCall) : HandlerResultNC :=
      ⟨.ok (txRespJson txid (data.status.block_height.getD 0) conf
              (data.fee / 100000000) (((data.vout.sum : ℚ)) / 100000000)
              (tsOrNA fmt data.status.block_time)),
       calls⟩
    if data.status.confirmed then
      match up.tip with
      | .error _ =>
        ⟨.error (.httpException 400 "Invalid txid"), [.bsTx txid, .bsTipHeight]⟩
      | .ok none => ⟨.error .unhandled, [.bsTx txid, .bsTipHeight]⟩
      | .ok (some tipHeight) =>
        match data.status.block_height with
        | none => ⟨.error .unhandled, [.bsTx txid, .bsTipHeight]⟩
        | some bh => finish ((tipHeight : ℤ) - (bh : ℤ) + 1) [.bsTx txid, .bsTipHeight]
    else
      finish 0 [.bsTx txid]

/-! ### /block/{height} and /block/{hash} (btc1.py lines 174-225) -/

/-- Block-detail payload fields: `timestamp` and `tx_count` read directly,
the miner via `data.get("extras", {}).get("pool_name", "Unknown")`. -/
structure BlockData where
  timestamp : ℕ
  pool_name : Option String
  tx_count : ℕ

/-- Oracle for `get_block`: the height-to-hash lookup, then the
block-detail fetch. -/
structure BlockUpstream where
  hashResp : Except UpErr String
  blockResp : Except UpErr BlockData

/-- Serialized response of the block endpoints. -/
def blockRespJson (height : ℕ) (hash ts miner : String) (txc : ℕ) (reward : ℚ) : Json :=
  .obj [("height", .num height),
        ("hash", .str hash),
        ("timestamp", .str ts),
        ("miner", .str miner),
        ("tx_count", .num txc),
        ("reward_btc", .num reward)]

/-- `get_block` (btc1.py lines 174-200): cache key `block:height:{height}`,
TTL 3600; dependent upstream calls in order (hash lookup, then detail);
`reward = 50 / (2 ** (height // HALVING_INTERVAL))`. -/
def btc1GetBlock (height : ℕ) (now : ℕ) (fmt : ℕ → String) (cache : Cache)
    (up : BlockUpstream) : HandlerResult :=
  let cacheKey := "block:height:" ++ toString height
  match cacheGet cache now cacheKey with
  | some v => ⟨.ok v, cache, []⟩
  | none =>
    match up.hashResp with
    | .error _ =>
      ⟨.error (.httpException 400 "Invalid block height"), cache, [.bsBlockHeight height]⟩
    | .ok blockHash =>
      match up.blockResp with
      | .error _ =>
        ⟨.error (.httpException 400 "Invalid block height"), cache,
         [.bsBlockHeight height, .bsBlock blockHash]⟩
      | .ok data =>
        let resp := blockRespJson height blockHash (fmt data.timestamp)
          (data.pool_name.getD "Unknown") data.tx_count (blockReward height)
        ⟨.ok resp, cacheSetex cache now cacheKey 3600 resp,
         [.bsBlockHeight height, .bsBlock blockHash]⟩

/-- Block-detail payload for the by-hash endpoint, which also reads the
`height` field directly. -/
structure BlockDataH where
  height : ℕ
  timestamp : ℕ
  pool_name : Option String
  tx_count : ℕ

/-- `get_block_by_hash` (btc1.py lines 202-225): cache key
`block:hash:{hash}`, TTL 3600; reward computed from the height field of the
payload by the same expression. -/
def btc1GetBlockByHash (hash : String) (now : ℕ) (fmt : ℕ → String) (cache : Cache)
    (up : Except UpErr BlockDataH) : HandlerResult :=
  let cacheKey := "block:hash:" ++ hash
  match cacheGet cache now cacheKey with
  | some v => ⟨.ok v, cache, []⟩
  | none =>
    match up with
    | .error _ =>
      ⟨.error (.httpException 400 "Invalid block hash"), cache, [.bsBlock hash]⟩
    | .ok data =>
      let resp := blockRespJson data.height hash (fmt data.timestamp)
        (data.pool_name.getD "Unknown") data.tx_count (blockReward data.height)
      ⟨.ok resp, cacheSetex cache now cacheKey 3600 resp, [.bsBlock hash]⟩

/-! ### /stats (btc1.py lines 235-267) -/

/-- Oracle for the four upstream calls of `get_stats`, in program order:
`cg.get_coin_by_id` (payload collapsed to the field path
`market_data.circulating_supply`, `none` when absent), the two
blockchain.info chart fetches (payload `values[-1].y`, `none` when the list
is empty or the keys absent), and the mempool fetch (payload `vsize`). -/
structure StatsUpstream where
  coin : Except UpErr (Option ℚ)
  hr : Except UpErr (Option ℚ)
  diff : Except UpErr (Option ℚ)
  mem : Except UpErr (Option ℤ)

/-- Serialized response of the stats endpoint. -/
def statsRespJson (hashrate difficulty supply memMb : ℚ) (ts : String) : Json :=
  .obj [("hashrate_th_s", .num hashrate),
        ("difficulty", .num difficulty),
        ("circulating_supply_btc", .num supply),
        ("mempool_size_mb", .num memMb),
        ("timestamp", .str ts)]

/-- `get_stats` (btc1.py lines 235-267): cache key `stats`, TTL 60.  Program
order is kept exactly: the hash-rate and difficulty responses are both
fetched before either `raise_for_status` runs, all three chart/coin payloads
are parsed before the mempool fetch, and any `requests.RequestException`
maps to `HTTPException(500, "Error fetching stats")` while a missing payload
field (`KeyError`/`IndexError`) escapes the handler. -/
def btc1GetStats (now : ℕ) (nowStr : String) (cache : Cache)
    (up : StatsUpstream) : HandlerResult :=
  match cacheGet cache now "stats" with
  | some v => ⟨.ok v, cache, []⟩
  | none =>
    let err : HErr := .httpException 500 "Error fetching stats"
    match up.coin with
    | .error _ => ⟨.error err, cache, [.cgCoinById "bitcoin"]⟩
    | .ok coinOpt =>
      match up.hr with
      | .error .transport => ⟨.error err, cache, [.cgCoinById "bitcoin", .bcHashRate]⟩
      | hrRes =>
        match up.diff with
        | .error .transport =>
          ⟨.error err, cache, [.cgCoinById "bitcoin", .bcHashRate, .bcDifficulty]⟩
        | diffRes =>
          let calls3 : List UpCall := [.cgCoinById "bitcoin", .bcHashRate, .bcDifficulty]
          match hrRes, diffRes with
          | .error .badStatus, _ => ⟨.error err, cache, calls3⟩
          | _, .error .badStatus => ⟨.error err, cache, calls3⟩
          | .ok hrOpt, .ok diffOpt =>
            match hrOpt, diffOpt, coinOpt with
            | some hashrate, some difficulty, some supply =>
              match up.mem with
              | .error _ => ⟨.error err, cache, calls3 ++ [.bsMempool]⟩
              | .ok none => ⟨.error .unhandled, cache, calls3 ++ [.bsMempool]⟩
              | .ok (some vsize) =>
                let resp := statsRespJson hashrate difficulty supply
                  ((vsize : ℚ) / 1000000) nowStr
                ⟨.ok resp, cacheSetex cache now "stats" 60 resp, calls3 ++ [.bsMempool]⟩
            | _, _, _ => ⟨.error .unhandled, cache, calls3⟩
          | .error .transport, _ => ⟨.error err, cache, calls3⟩
          | _, .error .transport => ⟨.error err, cache, calls3⟩

/-! ### /historical/price (btc1.py lines 276-300) -/

/-- Gregorian leap year, as `datetime` uses it. -/
def isLeapYear (y : ℕ) : Bool := y % 4 == 0 && (y % 100 != 0 || y % 400 == 0)

/-- Number of days of month `m` of year `y`. -/
def daysInMonth (y m : ℕ) : ℕ :=
  if m = 2 then (if isLeapYear y then 29 else 28)
  else if m = 4 ∨ m = 6 ∨ m = 9 ∨ m = 11 then 30
  else 31

/-- The numeric value of a decimal digit character. -/
def digitVal (c : Char) : Option ℕ :=
  if c.isDigit then some (c.toNat - 48) else none

/-- `datetime.fromisoformat(date)` restricted to its plain calendar-date
grammar: exactly `YYYY-MM-DD` with a valid Gregorian date, year at least 1
(`datetime.MINYEAR`).  `fromisoformat` additionally accepts a valid date
followed by a time-of-day suffix; no theorem below depends on the behavior
of such suffixed inputs — acceptance facts are conditioned on this parser
succeeding and rejection facts on it failing. -/
def pyFromisoformat (s : String) : Option (ℕ × ℕ × ℕ) :=
  match s.data with
  | [y1, y2, y3, y4, s1, m1, m2, s2, d1, d2] =>
    if s1 = '-' ∧ s2 = '-' then
      match digitVal y1, digitVal y2, digitVal y3, digitVal y4,
            digitVal m1, digitVal m2, digitVal d1, digitVal d2 with
      | some a, some b, some c, some d, some e, some f, some g, some h =>
        let y := 1000 * a + 100 * b + 10 * c + d
        let m := 10 * e + f
        let dd := 10 * g + h
        if 1 ≤ y ∧ 1 ≤ m ∧ m ≤ 12 ∧ 1 ≤ dd ∧ dd ≤ daysInMonth y m then
          some (y, m, dd)
        else none
      | _, _, _, _, _, _, _, _ => none
    else none
  | _ => none

/-- Zero-padded two-digit rendering, as `strftime` emits for `%d`/`%m`. -/
def pad2 (n : ℕ) : String := if n < 10 then "0" ++ toString n else toString n

/-- `dt.strftime("%d-%m-%Y")`: zero-padded day and month; `%Y` renders the
year with no padding (glibc behavior, 4 digits for the years in scope). -/
def strftimeDMY (d m y : ℕ) : String :=
  pad2 d ++ "-" ++ pad2 m ++ "-" ++ toString y

/-- Payload of `cg.get_coin_history_by_id`: the three `market_data` field
paths the handler reads, `none` when absent (the resulting `KeyError` is
caught by the blanket `except Exception`). -/
structure HistData where
  price_usd : Option ℚ
  market_cap_usd : Option ℚ
  volume_usd : Option ℚ

/-- Serialized response of the historical-price endpoint. -/
def histRespJson (date : String) (price mcap vol : ℚ) : Json :=
  .obj [("date", .str date),
        ("price_usd", .num price),
        ("market_cap_usd", .num mcap),
        ("volume_usd", .num vol)]

/-- `get_historical_price` (btc1.py lines 276-300).  The date is parsed and
converted with `strftime("%d-%m-%Y")` before the cache is consulted; a parse
failure maps to `HTTPException(400, "Invalid date format. Use YYYY-MM-DD")`
with no cache access and no upstream call.  Cache key
`historical_price:{date}` (the raw input), TTL 86400.  The second try block
catches every exception, mapping it to a 500 whose detail embeds `str(e)`
(modelled by the fixed prefix). -/
def btc1GetHistoricalPrice (date : String) (now : ℕ) (cache : Cache)
    (up : Except UpErr HistData) : HandlerResult :=
  match pyFromisoformat date with
  | none =>
    ⟨.error (.httpException 400 "Invalid date format. Use YYYY-MM-DD"), cache, []⟩
  | some (y, m, d) =>
    let dateCg := strftimeDMY d m y
    let cacheKey := "historical_price:" ++ date
    match cacheGet cache now cacheKey with
    | some v => ⟨.ok v, cache, []⟩
    | none =>
      match up with
      | .error _ =>
        ⟨.error (.httpException 500 "Error fetching historical data"), cache,
         [.cgCoinHistory "bitcoin" dateCg]⟩
      | .ok md =>
        match md.price_usd, md.market_cap_usd, md.volume_usd with
        | some p, some mc, some vol =>
          let resp := histRespJson date p mc vol
          ⟨.ok resp, cacheSetex cache now cacheKey 86400 resp,
           [.cgCoinHistory "bitcoin" dateCg]⟩
        | _, _, _ =>
          ⟨.error (.httpException 500 "Error fetching historical data"), cache,
           [.cgCoinHistory "bitcoin" dateCg]⟩

/-! ### /mempool (btc1.py lines 313-333) -/

/-- Mempool payload: `count`, `vsize` and `total_fee` read directly,
`fee_histogram` via `.get(.., [])`, each entry an array read at indices 0
and 1. -/
structure MempoolData where
  count : Option ℤ
  vsize : Option ℤ
  total_fee : Option ℚ
  fee_histogram : Option (List (ℚ × ℤ))

/-- Serialized response of the mempool endpoint. -/
def mempoolRespJson (count vsize : ℤ) (totalFee : ℚ) (hist : List (ℚ × ℤ)) : Json :=
  .obj [("count", .num count),
        ("vsize", .num vsize),
        ("total_fee_btc", .num totalFee),
        ("fee_histogram",
         .arr (hist.map (fun e => .obj [("fee_rate", .num e.1), ("vsize", .num e.2)])))]

/-- `get_mempool` (btc1.py lines 313-333): cache key `mempool`, TTL 10;
`total_fee_btc = total_fee / 1e8`; `requests.RequestException` maps to
`HTTPException(500, "Error fetching mempool data")`, a missing directly
indexed field escapes the handler. -/
def btc1GetMempool (now : ℕ) (cache : Cache)
    (up : Except UpErr MempoolData) : HandlerResult :=
  match cacheGet cache now "mempool" with
  | some v => ⟨.ok v, cache, []⟩
  | none =>
    match up with
    | .error _ =>
      ⟨.error (.httpException 500 "Error fetching mempool data"), cache, [.bsMempool]⟩
    | .ok data =>
      match data.count, data.vsize, data.total_fee with
      | some count, some vsize, some totalFee =>
        let resp := mempoolRespJson count vsize (totalFee / 100000000)
          (data.fee_histogram.getD [])
        ⟨.ok resp, cacheSetex cache now "mempool" 10 resp, [.bsMempool]⟩
      | _, _, _ => ⟨.error .unhandled, cache, [.bsMempool]⟩

/-! ### /halving (btc1.py lines 342-367) -/

/-- Serialized response of the halving endpoint. -/
def halvingRespJson (reward : ℚ) (nextHalving blocksRemaining : ℕ) (eta : String) : Json :=
  .obj [("current_reward_btc", .num reward),
        ("next_halving_block", .num nextHalving),
        ("blocks_remaining", .num blocksRemaining),
        ("estimated_date", .str eta)]

/-- `get_halving` (btc1.py lines 342-367): cache key `halving`, TTL 600.
The tip oracle mirrors `int(tip_resp.text)` (`none` when the body is not an
integer, making the `ValueError` escape).  `epoch = tip // 210000`,
`current_reward = 50 / 2**epoch`, `next_halving = (epoch+1) * 210000`,
`blocks_remaining = next_halving - tip` (always positive);
`estimated_date = utcnow + timedelta(minutes=blocks_remaining * 10)`,
abstracted by the formatting parameter `etaFmt` applied to the minute
count. -/
def btc1GetHalving (now : ℕ) (etaFmt : ℕ → String) (cache : Cache)
    (up : Except UpErr (Option ℕ)) : HandlerResult :=
  match cacheGet cache now "halving" with
  | some v => ⟨.ok v, cache, []⟩
  | none =>
    match up with
    | .error _ =>
      ⟨.error (.httpException 500 "Error fetching halving data"), cache, [.bsTipHeight]⟩
    | .ok none => ⟨.error .unhandled, cache, [.bsTipHeight]⟩
    | .ok (some currentHeight) =>
      let epoch := currentHeight / HALVING_INTERVAL
      let currentReward : ℚ := 50 / 2 ^ epoch
      let nextHalving := (epoch + 1) * HALVING_INTERVAL
      let blocksRemaining := nextHalving - currentHeight
      let resp := halvingRespJson currentReward nextHalving blocksRemaining
        (etaFmt (blocksRemaining * 10))
      ⟨.ok resp, cacheSetex cache now "halving" 600 resp, [.bsTipHeight]⟩

/-! ### /fees (btc1.py lines 376-396) -/

/-- Serialized response of the fees endpoint. -/
def feesRespJson (fastest halfHour hour minimum : ℚ) : Json :=
  .obj [("fastest_sat_vb", .num fastest),
        ("half_hour_sat_vb", .num halfHour),
        ("hour_sat_vb", .num hour),
        ("minimum_sat_vb", .num minimum)]

/-- `get_fees` (btc1.py lines 376-396): cache key `fees`, TTL 60.  The
fee-estimates payload is a JSON object mapping confirmation-target keys to
sat/vB rates, modelled as an association list; every tier is read with
`data.get(key, 0)`, so a missing target key falls back to 0 and the
response is built for every payload. -/
def btc1GetFees (now : ℕ) (cache : Cache)
    (up : Except UpErr (List (String × ℚ))) : HandlerResult :=
  match cacheGet cache now "fees" with
  | some v => ⟨.ok v, cache, []⟩
  | none =>
    match up with
    | .error _ =>
      ⟨.error (.httpException 500 "Error fetching fee estimates"), cache, [.bsFeeEstimates]⟩
    | .ok data =>
      let resp := feesRespJson ((data.lookup "1").getD 0) ((data.lookup "3").getD 0)
        ((data.lookup "6").getD 0) ((data.lookup "144").getD 0)
      ⟨.ok resp, cacheSetex cache now "fees" 60 resp, [.bsFeeEstimates]⟩

/-! ## main.py — the uncached gateway variant -/

/-- Python `int(x)` on a float: truncation toward zero. -/
def pyInt (q : ℚ) : ℤ := if 0 ≤ q then ⌊q⌋ else ⌈q⌉

/-- Placeholder for `str(e)` in `HTTPException(status_code=500,
detail=str(e))`: the exception message text, which no claim inspects. -/
def excStr (e : UpErr) : String :=
  match e with
  | .transport => "connection error"
  | .badStatus => "http error"

/-- `get_balance` (main.py lines 73-93): identical to the btc1 variant
except for the error detail; the USD price lookup is again a direct
CoinGecko call. -/
def mainGetBalance (address : String) (fmt : ℕ → String)
    (up : BalanceUpstream) : HandlerResultNC :=
  match up.addr with
  | .error _ =>
    ⟨.error (.httpException 400 "Invalid address or API error"), [.bsAddress address]⟩
  | .ok data =>
    match up.price with
    | .error _ =>
      ⟨.error (.httpException 400 "Invalid address or API error"),
       [.bsAddress address, .cgSimplePrice "usd"]⟩
    | .ok none =>
      ⟨.error .unhandled, [.bsAddress address, .cgSimplePrice "usd"]⟩
    | .ok (some price) =>
      let balanceSats : ℤ := data.funded_txo_sum - data.spent_txo_sum
      ⟨.ok (balanceRespJson address ((balanceSats : ℚ) / 100000000)
              (((balanceSats : ℚ) / 100000000) * price) data.tx_count
              (tsOrNA fmt data.last_tx_timestamp)),
       [.bsAddress address, .cgSimplePrice "usd"]⟩

/-- Transaction payload as read by main.py, which additionally reads a
top-level `latest_height` field with
`data.get("latest_height", status["block_height"])` — a field the explorer
does not include in transaction payloads. -/
structure TxDataMain where
  status : TxStatus
  latest_height : Option ℕ
  vout : List ℤ
  fee : ℚ

/-- `get_tx` (main.py lines 104-124).  For a confirmed transaction, line 113
computes `confirmations = status.get("block_height", 0) -
data.get("latest_height", status["block_height"]) + 1` — no chain-tip
fetch is made, and since the `.get` default is evaluated eagerly, a missing
`block_height` raises even when `latest_height` is present.  When
`latest_height` is absent (the explorer never sends it), this yields
`block_height - block_height + 1 = 1` for every confirmed transaction. -/
def mainGetTx (txid : String) (fmt : ℕ → String)
    (up : Except UpErr TxDataMain) : HandlerResultNC :=
  match up with
  | .error _ => ⟨.error (.httpException 400 "Invalid txid or API error"), [.bsTx txid]⟩
  | .ok data =>
    let finish (conf : ℤ) : HandlerResultNC :=
      ⟨.ok (txRespJson txid (data.status.block_height.getD 0) conf
              (data.fee / 100000000) (((data.vout.sum : ℚ)) / 100000000)
              (tsOrNA fmt data.status.block_time)),
       [.bsTx txid]⟩
    if data.status.confirmed then
      match data.status.block_height with
      | none => ⟨.error .unhandled, [.bsTx txid]⟩
      | some bh => finish ((bh : ℤ) - ((data.latest_height.getD bh : ℕ) : ℤ) + 1)
    else
      finish 0

/-- `get_block` (main.py lines 135-159): same dependent calls and the same
reward expression `50 / (2 ** (height // HALVING_INTERVAL))` as btc1, with
no caching. -/
def mainGetBlock (height : ℕ) (fmt : ℕ → String)
    (up : BlockUpstream) : HandlerResultNC :=
  match up.hashResp with
  | .error _ =>
    ⟨.error (.httpException 400 "Invalid block height or API error"), [.bsBlockHeight height]⟩
  | .ok blockHash =>
    match up.blockResp with
    | .error _ =>
      ⟨.error (.httpException 400 "Invalid block height or API error"),
       [.bsBlockHeight height, .bsBlock blockHash]⟩
    | .ok data =>
      ⟨.ok (blockRespJson height blockHash (fmt data.timestamp)
              (data.pool_name.getD "Unknown") data.tx_count (blockReward height)),
       [.bsBlockHeight height, .bsBlock blockHash]⟩

/-- Serialized response of the main.py historical-price endpoint (its field
order differs from btc1). -/
def mainHistRespJson (date : String) (price vol mcap : ℚ) : Json :=
  .obj [("date", .str date),
        ("price_usd", .num price),
        ("volume_24h_usd", .num vol),
        ("market_cap_usd", .num mcap)]

/-- `get_historical_price` (main.py lines 212-230).  The conversion is
`y, m, d = date.split("-"); cg_date = f"{d}-{m}-{y}"`: the only client-side
rejection is the unpacking `ValueError` when splitting on `-` does not give
exactly three fields (caught as a 400); any three-field string — malformed
or not — is swapped and sent upstream, and an upstream failure surfaces via
`except Exception` as a 500. -/
def mainGetHistoricalPrice (date : String)
    (up : Except UpErr HistData) : HandlerResultNC :=
  match pySplit '-' date with
  | [y, m, d] =>
    let cgDate := d ++ "-" ++ m ++ "-" ++ y
    match up with
    | .error e =>
      ⟨.error (.httpException 500 (excStr e)), [.cgCoinHistory "bitcoin" cgDate]⟩
    | .ok md =>
      match md.price_usd, md.volume_usd, md.market_cap_usd with
      | some p, some vol, some mc =>
        ⟨.ok (mainHistRespJson date p vol mc), [.cgCoinHistory "bitcoin" cgDate]⟩
      | _, _, _ =>
        ⟨.error (.httpException 500 "KeyError"), [.cgCoinHistory "bitcoin" cgDate]⟩
  | _ =>
    ⟨.error (.httpException 400 "Invalid date format (use YYYY-MM-DD)"), []⟩

/-- Oracle for the two upstream calls of main.py `get_fees`: the
fee-estimates fetch (checked with `raise_for_status`) and the mempool fetch
(not status-checked: a non-2xx response body then fails JSON decoding with
a `ValueError` that escapes the handler). -/
structure MainFeesUpstream where
  fees : Except UpErr (List (String × ℚ))
  mem : Except UpErr (Option ℤ)

/-- Serialized response of the main.py fees endpoint. -/
def mainFeesRespJson (fast medium slow : ℤ) (memMb : ℚ) (ts : String) : Json :=
  .obj [("fast_sat_per_byte", .num fast),
        ("fast_confirm_min", .num (20 : ℤ)),
        ("medium_sat_per_byte", .num medium),
        ("medium_confirm_min", .num (60 : ℤ)),
        ("slow_sat_per_byte", .num slow),
        ("slow_confirm_min", .num (1440 : ℤ)),
        ("mempool_size_mb", .num memMb),
        ("timestamp", .str ts)]

/-- `get_fees` (main.py lines 309-334).  Every tier is read with a default:
`fast = int(data.get("2", 50))`, `medium = int(data.get("6", 25))`,
`slow = int(data.get("144", 10))` — a missing confirmation-target key can
never fail the endpoint. -/
def mainGetFees (nowStr : String) (up : MainFeesUpstream) : HandlerResultNC :=
  match up.fees with
  | .error _ => ⟨.error (.httpException 500 "API error"), [.bsFeeEstimates]⟩
  | .ok data =>
    let fast := pyInt ((data.lookup "2").getD 50)
    let medium := pyInt ((data.lookup "6").getD 25)
    let slow := pyInt ((data.lookup "144").getD 10)
    match up.mem with
    | .error .transport =>
      ⟨.error (.httpException 500 "API error"), [.bsFeeEstimates, .bsMempool]⟩
    | .error .badStatus => ⟨.error .unhandled, [.bsFeeEstimates, .bsMempool]⟩
    | .ok none => ⟨.error .unhandled, [.bsFeeEstimates, .bsMempool]⟩
    | .ok (some vsize) =>
      ⟨.ok (mainFeesRespJson fast medium slow ((vsize : ℚ) / 1000000) nowStr),
       [.bsFeeEstimates, .bsMempool]⟩

/-- Whether a handler outcome is a success. -/
def exceptIsOk : Except HErr Json → Bool
  | .ok _ => true
  | .error _ => false

/-! ## Claims -/

/-- C1: for a cacheable endpoint, when the Response Cache holds an unexpired
entry for the endpoint's cache key, the handler deserializes and returns
exactly that stored value — no upstream calls are made and the cache is
unchanged, so the returned payload is byte-identical to what was cached,
including its embedded timestamp field (shown on the cited cacheable
endpoints, price and stats). -/
theorem C1_cache_hit_returns_cached_value
    (fiat : String) (now : ℕ) (nowStr : String) (cache : Cache)
    (up : PriceUpstream) (sup : StatsUpstream) (v w : Json)
    (hp : cacheGet cache now ("price:" ++ pyLower fiat) = some v)
    (hs : cacheGet cache now "stats" = some w) :
    btc1GetPrice fiat now nowStr cache up = ⟨.ok v, cache, []⟩ ∧
    btc1GetStats now nowStr cache sup = ⟨.ok w, cache, []⟩ := by
  constructor
  · simp only [btc1GetPrice, hp]
  · simp only [btc1GetStats, hs]

/-- Witness for C1: a concrete cache holding unexpired entries for
`price:usd` and `stats`; both handlers return the stored values verbatim
with no upstream calls, although every upstream oracle fails. -/
theorem C1_witness :
    btc1GetPrice "usd" 0 "T" [("price:usd", .str "PV", 5), ("stats", .str "SV", 7)]
        ⟨.error .transport⟩ =
      ⟨.ok (.str "PV"), [("price:usd", .str "PV", 5), ("stats", .str "SV", 7)], []⟩ ∧
    btc1GetStats 0 "T" [("price:usd", .str "PV", 5), ("stats", .str "SV", 7)]
        ⟨.error .transport, .error .transport, .error .transport, .error .transport⟩ =
      ⟨.ok (.str "SV"), [("price:usd", .str "PV", 5), ("stats", .str "SV", 7)], []⟩ :=
  C1_cache_hit_returns_cached_value "usd" 0 "T" _ _ _ _ _ rfl rfl

/-- C2: the block reward computed by the block endpoints of both gateways is
`50 / 2 ^ (h / 210000)` (floor division), and the halving endpoint reports
next-halving height `(H / 210000 + 1) * 210000` and blocks remaining equal
to that height minus the tip height `H` (the final conjunct shows the
next-halving height always exceeds `H`, so the natural subtraction is the
integer difference). -/
theorem C2_reward_and_halving_arithmetic
    (h H now : ℕ) (fmt etaFmt : ℕ → String) (cache : Cache)
    (bup : BlockUpstream) (hash : String) (bd : BlockData)
    (hbh : bup.hashResp = .ok hash) (hbd : bup.blockResp = .ok bd)
    (hmiss : cacheGet cache now ("block:height:" ++ toString h) = none)
    (hmiss2 : cacheGet cache now "halving" = none) :
    (btc1GetBlock h now fmt cache bup).result =
      .ok (blockRespJson h hash (fmt bd.timestamp) (bd.pool_name.getD "Unknown")
             bd.tx_count (50 / 2 ^ (h / 210000))) ∧
    (mainGetBlock h fmt bup).result =
      .ok (blockRespJson h hash (fmt bd.timestamp) (bd.pool_name.getD "Unknown")
             bd.tx_count (50 / 2 ^ (h / 210000))) ∧
    (btc1GetHalving now etaFmt cache (.ok (some H))).result =
      .ok (halvingRespJson (50 / 2 ^ (H / 210000)) ((H / 210000 + 1) * 210000)
             ((H / 210000 + 1) * 210000 - H)
             (etaFmt (((H / 210000 + 1) * 210000 - H) * 10))) ∧
    H < (H / 210000 + 1) * 210000 := by
  refine ⟨?_, ?_, ?_, ?_⟩
  · simp only [btc1GetBlock, hmiss, hbh, hbd, blockReward, HALVING_INTERVAL]
  · simp only [mainGetBlock, hbh, hbd, blockReward, HALVING_INTERVAL]
  · simp only [btc1GetHalving, hmiss2, HALVING_INTERVAL]
  · have h1 := Nat.div_add_mod H 210000
    have h2 : H % 210000 < 210000 := Nat.mod_lt _ (by norm_num)
    omega

/-- Witness for C2 at height 700000 (three completed halvings, reward
`50 / 2^3`) with an empty cache. -/
theorem C2_witness :
    (btc1GetBlock 700000 0 (fun n => toString n) [] ⟨.ok "bh", .ok ⟨160, none, 2000⟩⟩).result =
      .ok (blockRespJson 700000 "bh" (toString 160) "Unknown" 2000 (50 / 2 ^ 3)) ∧
    (btc1GetHalving 0 (fun n => toString n) [] (.ok (some 700000))).result =
      .ok (halvingRespJson (50 / 2 ^ 3) 840000 140000 (toString (140000 * 10))) ∧
    (50 : ℚ) / 2 ^ 3 = 25 / 4 := by
  have := C2_reward_and_halving_arithmetic 700000 700000 0 (fun n => toString n)
    (fun n => toString n) [] ⟨.ok "bh", .ok ⟨160, none, 2000⟩⟩ "bh" ⟨160, none, 2000⟩
    rfl rfl rfl rfl
  refine ⟨this.1, ?_, by norm_num⟩
  have h3 := this.2.2.1
  norm_num at h3 ⊢
  exact h3

/-- C8: the block reward function `blockReward h = 50 / 2 ^ (h / 210000)` is
monotonically non-increasing in the block height. -/
theorem C8_blockReward_monotone (h1 h2 : ℕ) (hle : h1 ≤ h2) :
    blockReward h2 ≤ blockReward h1 ∧ blockReward h1 = 50 / 2 ^ (h1 / 210000) := by
  constructor
  · unfold blockReward
    have hexp : (2 : ℚ) ^ (h1 / HALVING_INTERVAL) ≤ 2 ^ (h2 / HALVING_INTERVAL) :=
      pow_le_pow_right₀ (by norm_num) (Nat.div_le_div_right hle)
    exact div_le_div_of_nonneg_left (by norm_num) (by positivity) hexp
  · rfl

/-- Witness for C8 across the first halving boundary. -/
theorem C8_witness :
    blockReward 210000 ≤ blockReward 0 ∧ blockReward 0 = 50 / 2 ^ (0 / 210000) :=
  C8_blockReward_monotone 0 210000 (by norm_num)

/-- C4: evaluation at the failing input.  For a confirmed transaction at
block height 100 whose payload (as the explorer always sends it) has no
`latest_height` field, while the live chain tip is at height 110: the
btc1.py endpoint fetches the live tip and reports
`confirmations = 110 - 100 + 1 = 11` as the claim states, but the main.py
endpoint makes no tip fetch at all and reports
`confirmations = 100 - 100 + 1 = 1`. -/
theorem C4_main_confirmations_stale :
    (btc1GetTx "t0" (fun n => toString n)
        ⟨.ok ⟨⟨true, some 100, some 5⟩, [7], 10⟩, .ok (some 110)⟩).result =
      .ok (txRespJson "t0" 100 11 ((10 : ℚ) / 100000000)
             (((7 : ℤ) : ℚ) / 100000000) (toString 5)) ∧
    (btc1GetTx "t0" (fun n => toString n)
        ⟨.ok ⟨⟨true, some 100, some 5⟩, [7], 10⟩, .ok (some 110)⟩).calls =
      [.bsTx "t0", .bsTipHeight] ∧
    (mainGetTx "t0" (fun n => toString n)
        (.ok ⟨⟨true, some 100, some 5⟩, none, [7], 10⟩)).result =
      .ok (txRespJson "t0" 100 1 ((10 : ℚ) / 100000000)
             (((7 : ℤ) : ℚ) / 100000000) (toString 5)) ∧
    (mainGetTx "t0" (fun n => toString n)
        (.ok ⟨⟨true, some 100, some 5⟩, none, [7], 10⟩)).calls = [.bsTx "t0"] := by
  refine ⟨?_, rfl, ?_, rfl⟩ <;>
    simp [btc1GetTx, mainGetTx, txRespJson, tsOrNA]

/-- C10: an unconfirmed transaction (status not confirmed) yields a
well-formed response, not an error, in both gateways: `confirmations = 0`,
`block_height` falling back to 0 and `timestamp` to `"N/A"` exactly when
the corresponding status fields are absent (the final conjuncts evaluate
those fallbacks at absent fields). -/
theorem C10_unconfirmed_tx_defaults
    (txid : String) (fmt : ℕ → String) (bh bt : Option ℕ) (vout : List ℤ) (fee : ℚ)
    (tip : Except UpErr (Option ℕ)) (lh : Option ℕ) :
    btc1GetTx txid fmt ⟨.ok ⟨⟨false, bh, bt⟩, vout, fee⟩, tip⟩ =
      ⟨.ok (txRespJson txid (bh.getD 0) 0 (fee / 100000000)
              ((vout.sum : ℚ) / 100000000) (tsOrNA fmt bt)), [.bsTx txid]⟩ ∧
    mainGetTx txid fmt (.ok ⟨⟨false, bh, bt⟩, lh, vout, fee⟩) =
      ⟨.ok (txRespJson txid (bh.getD 0) 0 (fee / 100000000)
              ((vout.sum : ℚ) / 100000000) (tsOrNA fmt bt)), [.bsTx txid]⟩ ∧
    Option.getD (none : Option ℕ) 0 = 0 ∧
    tsOrNA fmt none = "N/A" := by
  refine ⟨?_, ?_, rfl, rfl⟩ <;> simp [btc1GetTx, mainGetTx]

/-- C3 counterexample: the malformed date string `aa-bb-cc` splits into
three fields, so the uncached gateway does NOT raise a client error and
DOES make an upstream call — with the nonsense swapped date `cc-bb-aa` —
surfacing the upstream failure as a 500, where the claim requires a
400-equivalent ClientInputError with no upstream call. -/
theorem C3_counterexample_malformed_date_forwarded :
    mainGetHistoricalPrice "aa-bb-cc" (.error .transport) =
      ⟨.error (.httpException 500 (excStr .transport)),
       [.cgCoinHistory "bitcoin" "cc-bb-aa"]⟩ := rfl

/-- C3 as amended: (i) in the Redis gateway a date accepted by the parser
is converted to `DD-MM-YYYY` before the upstream call; (ii) a date the
parser rejects yields a 400 with no cache access and no upstream call;
(iii) in the uncached gateway any string splitting on `-` into exactly
three fields — malformed or not — is swapped to `d-m-y` and sent upstream;
(iv) only a string not splitting into three fields yields the 400 there,
again with no upstream call.  The conversions are pure functions of the
date string; (v) evaluates them on `2021-01-01`. -/
theorem C3_amended_date_conversion :
    (∀ date now cache up y m d, pyFromisoformat date = some (y, m, d) →
        cacheGet cache now ("historical_price:" ++ date) = none →
        (btc1GetHistoricalPrice date now cache up).calls =
          [.cgCoinHistory "bitcoin" (pad2 d ++ "-" ++ pad2 m ++ "-" ++ toString y)]) ∧
    (∀ date now cache up, pyFromisoformat date = none →
        btc1GetHistoricalPrice date now cache up =
          ⟨.error (.httpException 400 "Invalid date format. Use YYYY-MM-DD"), cache, []⟩) ∧
    (∀ date y m d up, pySplit '-' date = [y, m, d] →
        (mainGetHistoricalPrice date up).calls =
          [.cgCoinHistory "bitcoin" (d ++ "-" ++ m ++ "-" ++ y)]) ∧
    (∀ date up, (pySplit '-' date).length ≠ 3 →
        mainGetHistoricalPrice date up =
          ⟨.error (.httpException 400 "Invalid date format (use YYYY-MM-DD)"), []⟩) ∧
    pyFromisoformat "2021-01-01" = some (2021, 1, 1) ∧
    strftimeDMY 1 1 2021 = "01-01-2021" := by
  refine ⟨?_, ?_, ?_, ?_, by decide, by decide⟩
  · intro date now cache up y m d hparse hmiss
    simp only [btc1GetHistoricalPrice, hparse, hmiss, strftimeDMY]
    cases up with
    | error e => rfl
    | ok md =>
      rcases md with ⟨p, mc, vol⟩
      rcases p with _ | p <;> rcases mc with _ | mc <;> rcases vol with _ | vol <;> rfl
  · intro date now cache up hparse
    simp only [btc1GetHistoricalPrice, hparse]
  · intro date y m d up hsplit
    simp only [mainGetHistoricalPrice, hsplit]
    cases up with
    | error e => rfl
    | ok md =>
      rcases md with ⟨p, mc, vol⟩
      rcases p with _ | p <;> rcases vol with _ | vol <;> rcases mc with _ | mc <;> rfl
  · intro date up hlen
    unfold mainGetHistoricalPrice
    split
    · next y m d heq => exact absurd (by rw [heq] ; rfl) hlen
    · rfl

/-- Witness for C3 as amended: the valid date `2021-01-01` is converted to
`01-01-2021` and sent upstream by both gateways; `2021/01/01` is rejected
by the Redis gateway with a 400 and no call; `garbage` is rejected by the
uncached gateway with a 400 and no call. -/
theorem C3_amended_witness :
    (btc1GetHistoricalPrice "2021-01-01" 0 [] (.error .transport)).calls =
      [.cgCoinHistory "bitcoin" "01-01-2021"] ∧
    btc1GetHistoricalPrice "2021/01/01" 0 [] (.error .transport) =
      ⟨.error (.httpException 400 "Invalid date format. Use YYYY-MM-DD"), [], []⟩ ∧
    (mainGetHistoricalPrice "2021-01-01" (.error .transport)).calls =
      [.cgCoinHistory "bitcoin" "01-01-2021"] ∧
    mainGetHistoricalPrice "garbage" (.error .transport) =
      ⟨.error (.httpException 400 "Invalid date format (use YYYY-MM-DD)"), []⟩ := by
  refine ⟨?_, ?_, ?_, ?_⟩
  · exact C3_amended_date_conversion.1 "2021-01-01" 0 [] (.error .transport)
      2021 1 1 (by decide) rfl
  · exact C3_amended_date_conversion.2.1 "2021/01/01" 0 [] (.error .transport) (by decide)
  · exact C3_amended_date_conversion.2.2.1 "2021-01-01" "2021" "01" "01"
      (.error .transport) (by decide)
  · exact C3_amended_date_conversion.2.2.2.1 "garbage" (.error .transport) (by decide)

/-- C7 counterexample: the balance handler never consults the Response
Cache for the USD price (btc1.py lines 110-127 contain no `redis_client`
access, which is why `btc1GetBalance` takes no cache argument): on this
concrete successful request the upstream CoinGecko price call appears in
the trace, refuting that a cached `price:usd` value is reused in place of a
fresh upstream price call. -/
theorem C7_counterexample_balance_price_call :
    (btc1GetBalance "addr1" (fun n => toString n)
        ⟨.ok ⟨500, 200, 3, none⟩, .ok (some 40000)⟩).calls =
      [.bsAddress "addr1", .cgSimplePrice "usd"] := rfl

/-- C7 as amended: every satoshi-to-bitcoin conversion divides by
100,000,000 (balance, transaction fee and output value, mempool total fee),
and `balance_usd` is computed from an auxiliary USD price lookup that is a
direct upstream CoinGecko call issued on every balance request in both
gateways, bypassing the response cache. -/
theorem C7_amended_sats_conversion
    (address txid : String) (fmt : ℕ → String) (funded spent txc : ℤ)
    (ltx : Option ℕ) (p : ℚ) (bh bt : Option ℕ) (vout : List ℤ) (fee : ℚ)
    (tip : Except UpErr (Option ℕ)) (now : ℕ)
    (count vsize : ℤ) (tf : ℚ) (hist : Option (List (ℚ × ℤ))) :
    btc1GetBalance address fmt ⟨.ok ⟨funded, spent, txc, ltx⟩, .ok (some p)⟩ =
      ⟨.ok (balanceRespJson address (((funded - spent : ℤ) : ℚ) / 100000000)
              ((((funded - spent : ℤ) : ℚ) / 100000000) * p) txc (tsOrNA fmt ltx)),
       [.bsAddress address, .cgSimplePrice "usd"]⟩ ∧
    mainGetBalance address fmt ⟨.ok ⟨funded, spent, txc, ltx⟩, .ok (some p)⟩ =
      ⟨.ok (balanceRespJson address (((funded - spent : ℤ) : ℚ) / 100000000)
              ((((funded - spent : ℤ) : ℚ) / 100000000) * p) txc (tsOrNA fmt ltx)),
       [.bsAddress address, .cgSimplePrice "usd"]⟩ ∧
    btc1GetTx txid fmt ⟨.ok ⟨⟨false, bh, bt⟩, vout, fee⟩, tip⟩ =
      ⟨.ok (txRespJson txid (bh.getD 0) 0 (fee / 100000000)
              ((vout.sum : ℚ) / 100000000) (tsOrNA fmt bt)), [.bsTx txid]⟩ ∧
    btc1GetMempool now [] (.ok ⟨some count, some vsize, some tf, hist⟩) =
      ⟨.ok (mempoolRespJson count vsize (tf / 100000000) (hist.getD [])),
       cacheSetex [] now "mempool" 10 (mempoolRespJson count vsize (tf / 100000000)
         (hist.getD [])), [.bsMempool]⟩ := by
  refine ⟨rfl, rfl, ?_, rfl⟩
  simp [btc1GetTx]

/-- C9: the fees endpoints never fail because a confirmation-target key is
absent from the upstream fee-estimates map: for every map, every tier is
read with a fixed default (0 per tier in the Redis gateway; 50, 25 and 10
for fast, medium and slow in the uncached gateway) and a well-formed
response is returned; the final two conjuncts evaluate both handlers on the
empty map, exhibiting those defaults. -/
theorem C9_fees_default_missing_keys
    (now : ℕ) (nowStr : String) (data : List (String × ℚ)) (vsize : ℤ) :
    btc1GetFees now [] (.ok data) =
      ⟨.ok (feesRespJson ((data.lookup "1").getD 0) ((data.lookup "3").getD 0)
              ((data.lookup "6").getD 0) ((data.lookup "144").getD 0)),
       cacheSetex [] now "fees" 60
         (feesRespJson ((data.lookup "1").getD 0) ((data.lookup "3").getD 0)
           ((data.lookup "6").getD 0) ((data.lookup "144").getD 0)),
       [.bsFeeEstimates]⟩ ∧
    mainGetFees nowStr ⟨.ok data, .ok (some vsize)⟩ =
      ⟨.ok (mainFeesRespJson (pyInt ((data.lookup "2").getD 50))
              (pyInt ((data.lookup "6").getD 25)) (pyInt ((data.lookup "144").getD 10))
              ((vsize : ℚ) / 1000000) nowStr),
       [.bsFeeEstimates, .bsMempool]⟩ ∧
    btc1GetFees now [] (.ok []) =
      ⟨.ok (feesRespJson 0 0 0 0),
       cacheSetex [] now "fees" 60 (feesRespJson 0 0 0 0), [.bsFeeEstimates]⟩ ∧
    mainGetFees nowStr ⟨.ok [], .ok (some vsize)⟩ =
      ⟨.ok (mainFeesRespJson 50 25 10 ((vsize : ℚ) / 1000000) nowStr),
       [.bsFeeEstimates, .bsMempool]⟩ := by
  refine ⟨rfl, rfl, rfl, ?_⟩
  norm_num [mainGetFees, pyInt]

/-- Cache-effect characterization of `btc1GetPrice`: every run either
succeeds or leaves the cache unchanged. -/
theorem btc1GetPrice_ok_or_cache_unchanged (fiat : String) (now : ℕ) (nowStr : String)
    (cache : Cache) (up : PriceUpstream) :
    exceptIsOk (btc1GetPrice fiat now nowStr cache up).result = true ∨
    (btc1GetPrice fiat now nowStr cache up).cache = cache := by
  unfold btc1GetPrice
  dsimp only
  repeat' split
  all_goals first | exact Or.inl rfl | exact Or.inr rfl

/-- Cache-effect characterization of `btc1GetBlock`. -/
theorem btc1GetBlock_ok_or_cache_unchanged (h now : ℕ) (fmt : ℕ → String)
    (cache : Cache) (up : BlockUpstream) :
    exceptIsOk (btc1GetBlock h now fmt cache up).result = true ∨
    (btc1GetBlock h now fmt cache up).cache = cache := by
  unfold btc1GetBlock
  dsimp only
  repeat' split
  all_goals first | exact Or.inl rfl | exact Or.inr rfl

/-- Cache-effect characterization of `btc1GetBlockByHash`. -/
theorem btc1GetBlockByHash_ok_or_cache_unchanged (hash : String) (now : ℕ)
    (fmt : ℕ → String) (cache : Cache) (up : Except UpErr BlockDataH) :
    exceptIsOk (btc1GetBlockByHash hash now fmt cache up).result = true ∨
    (btc1GetBlockByHash hash now fmt cache up).cache = cache := by
  unfold btc1GetBlockByHash
  dsimp only
  repeat' split
  all_goals first | exact Or.inl rfl | exact Or.inr rfl

/-- Cache-effect characterization of `btc1GetStats`. -/
theorem btc1GetStats_ok_or_cache_unchanged (now : ℕ) (nowStr : String)
    (cache : Cache) (up : StatsUpstream) :
    exceptIsOk (btc1GetStats now nowStr cache up).result = true ∨
    (btc1GetStats now nowStr cache up).cache = cache := by
  unfold btc1GetStats
  dsimp only
  repeat' split
  all_goals first | exact Or.inl rfl | exact Or.inr rfl

/-- Cache-effect characterization of `btc1GetHistoricalPrice`. -/
theorem btc1GetHistoricalPrice_ok_or_cache_unchanged (date : String) (now : ℕ)
    (cache : Cache) (up : Except UpErr HistData) :
    exceptIsOk (btc1GetHistoricalPrice date now cache up).result = true ∨
    (btc1GetHistoricalPrice date now cache up).cache = cache := by
  unfold btc1GetHistoricalPrice
  dsimp only
  repeat' split
  all_goals first | exact Or.inl rfl | exact Or.inr rfl

/-- Cache-effect characterization of `btc1GetMempool`. -/
theorem btc1GetMempool_ok_or_cache_unchanged (now : ℕ) (cache : Cache)
    (up : Except UpErr MempoolData) :
    exceptIsOk (btc1GetMempool now cache up).result = true ∨
    (btc1GetMempool now cache up).cache = cache := by
  unfold btc1GetMempool
  dsimp only
  repeat' split
  all_goals first | exact Or.inl rfl | exact Or.inr rfl

/-- Cache-effect characterization of `btc1GetHalving`. -/
theorem btc1GetHalving_ok_or_cache_unchanged (now : ℕ) (etaFmt : ℕ → String)
    (cache : Cache) (up : Except UpErr (Option ℕ)) :
    exceptIsOk (btc1GetHalving now etaFmt cache up).result = true ∨
    (btc1GetHalving now etaFmt cache up).cache = cache := by
  unfold btc1GetHalving
  dsimp only
  repeat' split
  all_goals first | exact Or.inl rfl | exact Or.inr rfl

/-- Cache-effect characterization of `btc1GetFees`. -/
theorem btc1GetFees_ok_or_cache_unchanged (now : ℕ) (cache : Cache)
    (up : Except UpErr (List (String × ℚ))) :
    exceptIsOk (btc1GetFees now cache up).result = true ∨
    (btc1GetFees now cache up).cache = cache := by
  unfold btc1GetFees
  dsimp only
  repeat' split
  all_goals first | exact Or.inl rfl | exact Or.inr rfl

/-- C5: for every cacheable endpoint of the Redis gateway, a failed
resolution — upstream transport error, non-2xx status, or a missing-field
transform failure — leaves the Response Cache unchanged (in every handler,
`setex` is reached only on the success path, after all upstream calls and
the transform have succeeded), the error having been turned into the
client-visible outcome carried by `result`. -/
theorem C5_failed_resolution_no_cache_write :
    (∀ fiat now nowStr cache up e,
        (btc1GetPrice fiat now nowStr cache up).result = .error e →
        (btc1GetPrice fiat now nowStr cache up).cache = cache) ∧
    (∀ h now fmt cache up e,
        (btc1GetBlock h now fmt cache up).result = .error e →
        (btc1GetBlock h now fmt cache up).cache = cache) ∧
    (∀ hash now fmt cache up e,
        (btc1GetBlockByHash hash now fmt cache up).result = .error e →
        (btc1GetBlockByHash hash now fmt cache up).cache = cache) ∧
    (∀ now nowStr cache up e,
        (btc1GetStats now nowStr cache up).result = .error e →
        (btc1GetStats now nowStr cache up).cache = cache) ∧
    (∀ date now cache up e,
        (btc1GetHistoricalPrice date now cache up).result = .error e →
        (btc1GetHistoricalPrice date now cache up).cache = cache) ∧
    (∀ now cache up e,
        (btc1GetMempool now cache up).result = .error e →
        (btc1GetMempool now cache up).cache = cache) ∧
    (∀ now etaFmt cache up e,
        (btc1GetHalving now etaFmt cache up).result = .error e →
        (btc1GetHalving now etaFmt cache up).cache = cache) ∧
    (∀ now cache up e,
        (btc1GetFees now cache up).result = .error e →
        (btc1GetFees now cache up).cache = cache) := by
  refine ⟨?_, ?_, ?_, ?_, ?_, ?_, ?_, ?_⟩
  · intro fiat now nowStr cache up e hres
    rcases btc1GetPrice_ok_or_cache_unchanged fiat now nowStr cache up with hok | hc
    · rw [hres] at hok; exact Bool.noConfusion hok
    · exact hc
  · intro h now fmt cache up e hres
    rcases btc1GetBlock_ok_or_cache_unchanged h now fmt cache up with hok | hc
    · rw [hres] at hok; exact Bool.noConfusion hok
    · exact hc
  · intro hash now fmt cache up e hres
    rcases btc1GetBlockByHash_ok_or_cache_unchanged hash now fmt cache up with hok | hc
    · rw [hres] at hok; exact Bool.noConfusion hok
    · exact hc
  · intro now nowStr cache up e hres
    rcases btc1GetStats_ok_or_cache_unchanged now nowStr cache up with hok | hc
    · rw [hres] at hok; exact Bool.noConfusion hok
    · exact hc
  · intro date now cache up e hres
    rcases btc1GetHistoricalPrice_ok_or_cache_unchanged date now cache up with hok | hc
    · rw [hres] at hok; exact Bool.noConfusion hok
    · exact hc
  · intro now cache up e hres
    rcases btc1GetMempool_ok_or_cache_unchanged now cache up with hok | hc
    · rw [hres] at hok; exact Bool.noConfusion hok
    · exact hc
  · intro now etaFmt cache up e hres
    rcases btc1GetHalving_ok_or_cache_unchanged now etaFmt cache up with hok | hc
    · rw [hres] at hok; exact Bool.noConfusion hok
    · exact hc
  · intro now cache up e hres
    rcases btc1GetFees_ok_or_cache_unchanged now cache up with hok | hc
    · rw [hres] at hok; exact Bool.noConfusion hok
    · exact hc

/-- Witness for C5: concrete failing requests (transport failure on the
first upstream call; valid date for the historical endpoint) against the
empty cache, which each handler leaves unchanged. -/
theorem C5_witness :
    (btc1GetPrice "xxx" 0 "T" [] ⟨.error .transport⟩).cache = [] ∧
    (btc1GetBlock 1 0 (fun n => toString n) [] ⟨.error .transport, .error .transport⟩).cache
      = [] ∧
    (btc1GetBlockByHash "h0" 0 (fun n => toString n) [] (.error .transport)).cache = [] ∧
    (btc1GetStats 0 "T" []
        ⟨.error .transport, .error .transport, .error .transport, .error .transport⟩).cache
      = [] ∧
    (btc1GetHistoricalPrice "2021-01-01" 0 [] (.error .transport)).cache = [] ∧
    (btc1GetMempool 0 [] (.error .transport)).cache = [] ∧
    (btc1GetHalving 0 (fun n => toString n) [] (.error .transport)).cache = [] ∧
    (btc1GetFees 0 [] (.error .transport)).cache = [] :=
  ⟨C5_failed_resolution_no_cache_write.1 "xxx" 0 "T" [] ⟨.error .transport⟩ .unhandled rfl,
   C5_failed_resolution_no_cache_write.2.1 1 0 (fun n => toString n) []
     ⟨.error .transport, .error .transport⟩ (.httpException 400 "Invalid block height") rfl,
   C5_failed_resolution_no_cache_write.2.2.1 "h0" 0 (fun n => toString n) []
     (.error .transport) (.httpException 400 "Invalid block hash") rfl,
   C5_failed_resolution_no_cache_write.2.2.2.1 0 "T" []
     ⟨.error .transport, .error .transport, .error .transport, .error .transport⟩
     (.httpException 500 "Error fetching stats") rfl,
   C5_failed_resolution_no_cache_write.2.2.2.2.1 "2021-01-01" 0 [] (.error .transport)
     (.httpException 500 "Error fetching historical data") rfl,
   C5_failed_resolution_no_cache_write.2.2.2.2.2.1 0 [] (.error .transport)
     (.httpException 500 "Error fetching mempool data") rfl,
   C5_failed_resolution_no_cache_write.2.2.2.2.2.2.1 0 (fun n => toString n) []
     (.error .transport) (.httpException 500 "Error fetching halving data") rfl,
   C5_failed_resolution_no_cache_write.2.2.2.2.2.2.2 0 [] (.error .transport)
     (.httpException 500 "Error fetching fee estimates") rfl⟩

/-- C6: the error taxonomy of the Redis gateway.  An invalid fiat code (the
currency key absent from the price payload), a malformed date (rejected by
the date parser), or an invalid address/txid/block height/hash (the
upstream lookup fails) produce a 400-equivalent `HTTPException`; an
upstream failure on /stats, /mempool, /halving or /fees — timeout,
connection failure or non-2xx — produces a 500-equivalent; and no request
is retried: the upstream-call trace of every handler is duplicate-free on
every input. -/
theorem C6_error_taxonomy :
    (∀ fiat now nowStr cache data,
        cacheGet cache now ("price:" ++ pyLower fiat) = none →
        data.bind (fun d => List.lookup (pyLower fiat) d) = none →
        (btc1GetPrice fiat now nowStr cache ⟨.ok data⟩).result =
          .error (.httpException 400 "Invalid fiat currency")) ∧
    (∀ date now cache up, pyFromisoformat date = none →
        (btc1GetHistoricalPrice date now cache up).result =
          .error (.httpException 400 "Invalid date format. Use YYYY-MM-DD")) ∧
    (∀ address fmt e price,
        (btc1GetBalance address fmt ⟨.error e, price⟩).result =
          .error (.httpException 400 "Invalid address")) ∧
    (∀ txid fmt e tip,
        (btc1GetTx txid fmt ⟨.error e, tip⟩).result =
          .error (.httpException 400 "Invalid txid")) ∧
    (∀ h now fmt cache e bres,
        cacheGet cache now ("block:height:" ++ toString h) = none →
        (btc1GetBlock h now fmt cache ⟨.error e, bres⟩).result =
          .error (.httpException 400 "Invalid block height")) ∧
    (∀ hash now fmt cache e,
        cacheGet cache now ("block:hash:" ++ hash) = none →
        (btc1GetBlockByHash hash now fmt cache (.error e)).result =
          .error (.httpException 400 "Invalid block hash")) ∧
    (∀ now nowStr cache e hr diff mem,
        cacheGet cache now "stats" = none →
        (btc1GetStats now nowStr cache ⟨.error e, hr, diff, mem⟩).result =
          .error (.httpException 500 "Error fetching stats")) ∧
    (∀ now cache e, cacheGet cache now "mempool" = none →
        (btc1GetMempool now cache (.error e)).result =
          .error (.httpException 500 "Error fetching mempool data")) ∧
    (∀ now etaFmt cache e, cacheGet cache now "halving" = none →
        (btc1GetHalving now etaFmt cache (.error e)).result =
          .error (.httpException 500 "Error fetching halving data")) ∧
    (∀ now cache e, cacheGet cache now "fees" = none →
        (btc1GetFees now cache (.error e)).result =
          .error (.httpException 500 "Error fetching fee estimates")) ∧
    (∀ fiat now nowStr cache up, (btc1GetPrice fiat now nowStr cache up).calls.Nodup) ∧
    (∀ address fmt up, (btc1GetBalance address fmt up).calls.Nodup) ∧
    (∀ txid fmt up, (btc1GetTx txid fmt up).calls.Nodup) ∧
    (∀ h now fmt cache up, (btc1GetBlock h now fmt cache up).calls.Nodup) ∧
    (∀ hash now fmt cache up, (btc1GetBlockByHash hash now fmt cache up).calls.Nodup) ∧
    (∀ now nowStr cache up, (btc1GetStats now nowStr cache up).calls.Nodup) ∧
    (∀ date now cache up, (btc1GetHistoricalPrice date now cache up).calls.Nodup) ∧
    (∀ now cache up, (btc1GetMempool now cache up).calls.Nodup) ∧
    (∀ now etaFmt cache up, (btc1GetHalving now etaFmt cache up).calls.Nodup) ∧
    (∀ now cache up, (btc1GetFees now cache up).calls.Nodup) := by
  refine ⟨?_, ?_, ?_, ?_, ?_, ?_, ?_, ?_, ?_, ?_, ?_, ?_, ?_, ?_, ?_, ?_, ?_, ?_, ?_, ?_⟩
  · intro fiat now nowStr cache data hmiss hlook
    simp only [btc1GetPrice, hmiss, hlook]
  · intro date now cache up hparse
    simp only [btc1GetHistoricalPrice, hparse]
  · intro address fmt e price
    rfl
  · intro txid fmt e tip
    rfl
  · intro h now fmt cache e bres hmiss
    simp only [btc1GetBlock, hmiss]
  · intro hash now fmt cache e hmiss
    simp only [btc1GetBlockByHash, hmiss]
  · intro now nowStr cache e hr diff mem hmiss
    simp only [btc1GetStats, hmiss]
  · intro now cache e hmiss
    simp only [btc1GetMempool, hmiss]
  · intro now etaFmt cache e hmiss
    simp only [btc1GetHalving, hmiss]
  · intro now cache e hmiss
    simp only [btc1GetFees, hmiss]
  · intro fiat now nowStr cache up
    unfold btc1GetPrice
    dsimp only
    repeat' split
    all_goals simp
  · intro address fmt up
    unfold btc1GetBalance
    repeat' split
    all_goals simp
  · intro txid fmt up
    unfold btc1GetTx
    dsimp only
    repeat' split
    all_goals simp
  · intro h now fmt cache up
    unfold btc1GetBlock
    dsimp only
    repeat' split
    all_goals simp
  · intro hash now fmt cache up
    unfold btc1GetBlockByHash
    dsimp only
    repeat' split
    all_goals simp
  · intro now nowStr cache up
    unfold btc1GetStats
    dsimp only
    repeat' split
    all_goals simp
  · intro date now cache up
    unfold btc1GetHistoricalPrice
    dsimp only
    repeat' split
    all_goals simp
  · intro now cache up
    unfold btc1GetMempool
    dsimp only
    repeat' split
    all_goals simp
  · intro now etaFmt cache up
    unfold btc1GetHalving
    dsimp only
    repeat' split
    all_goals simp
  · intro now cache up
    unfold btc1GetFees
    dsimp only
    repeat' split
    all_goals simp

/-- Witness for C6: each taxonomy mapping evaluated at a concrete input —
an unknown fiat code, a slashed date, failing lookups for
address/txid/height/hash, failing providers for the four 500-mapped
endpoints — plus duplicate-free traces of concrete runs of all ten
handlers. -/
theorem C6_witness :
    (btc1GetPrice "xxx" 0 "T" [] ⟨.ok (some [])⟩).result =
      .error (.httpException 400 "Invalid fiat currency") ∧
    (btc1GetHistoricalPrice "2021/01/01" 0 [] (.error .transport)).result =
      .error (.httpException 400 "Invalid date format. Use YYYY-MM-DD") ∧
    (btc1GetBalance "a1" (fun n => toString n) ⟨.error .badStatus, .ok none⟩).result =
      .error (.httpException 400 "Invalid address") ∧
    (btc1GetTx "t1" (fun n => toString n) ⟨.error .badStatus, .ok none⟩).result =
      .error (.httpException 400 "Invalid txid") ∧
    (btc1GetBlock 1 0 (fun n => toString n) [] ⟨.error .badStatus, .error .badStatus⟩).result =
      .error (.httpException 400 "Invalid block height") ∧
    (btc1GetBlockByHash "h1" 0 (fun n => toString n) [] (.error .badStatus)).result =
      .error (.httpException 400 "Invalid block hash") ∧
    (btc1GetStats 0 "T" [] ⟨.error .transport, .ok none, .ok none, .ok none⟩).result =
      .error (.httpException 500 "Error fetching stats") ∧
    (btc1GetMempool 0 [] (.error .transport)).result =
      .error (.httpException 500 "Error fetching mempool data") ∧
    (btc1GetHalving 0 (fun n => toString n) [] (.error .transport)).result =
      .error (.httpException 500 "Error fetching halving data") ∧
    (btc1GetFees 0 [] (.error .transport)).result =
      .error (.httpException 500 "Error fetching fee estimates") ∧
    (btc1GetPrice "usd" 0 "T" [] ⟨.error .transport⟩).calls.Nodup ∧
    (btc1GetBalance "a1" (fun n => toString n) ⟨.ok ⟨1, 0, 1, none⟩, .ok (some 5)⟩).calls.Nodup ∧
    (btc1GetTx "t1" (fun n => toString n) ⟨.ok ⟨⟨true, some 3, none⟩, [], 1⟩, .ok (some 9)⟩).calls.Nodup ∧
    (btc1GetBlock 1 0 (fun n => toString n) [] ⟨.ok "bh", .ok ⟨1, none, 1⟩⟩).calls.Nodup ∧
    (btc1GetBlockByHash "h1" 0 (fun n => toString n) [] (.ok ⟨1, 1, none, 1⟩)).calls.Nodup ∧
    (btc1GetStats 0 "T" [] ⟨.ok (some 1), .ok (some 1), .ok (some 1), .ok (some 2)⟩).calls.Nodup ∧
    (btc1GetHistoricalPrice "2021-01-01" 0 [] (.error .transport)).calls.Nodup ∧
    (btc1GetMempool 0 [] (.ok ⟨some 1, some 1, some 1, none⟩)).calls.Nodup ∧
    (btc1GetHalving 0 (fun n => toString n) [] (.ok (some 5))).calls.Nodup ∧
    (btc1GetFees 0 [] (.ok [("1", 2)])).calls.Nodup := by
  obtain ⟨h1, h2, h3, h4, h5, h6, h7, h8, h9, h10,
    h11, h12, h13, h14, h15, h16, h17, h18, h19, h20⟩ := C6_error_taxonomy
  exact ⟨h1 "xxx" 0 "T" [] (some []) rfl rfl,
    h2 "2021/01/01" 0 [] (.error .transport) rfl,
    h3 "a1" (fun n => toString n) .badStatus (.ok none),
    h4 "t1" (fun n => toString n) .badStatus (.ok none),
    h5 1 0 (fun n => toString n) [] .badStatus (.error .badStatus) rfl,
    h6 "h1" 0 (fun n => toString n) [] .badStatus rfl,
    h7 0 "T" [] .transport (.ok none) (.ok none) (.ok none) rfl,
    h8 0 [] .transport rfl,
    h9 0 (fun n => toString n) [] .transport rfl,
    h10 0 [] .transport rfl,
    h11 "usd" 0 "T" [] ⟨.error .transport⟩,
    h12 "a1" (fun n => toString n) ⟨.ok ⟨1, 0, 1, none⟩, .ok (some 5)⟩,
    h13 "t1" (fun n => toString n) ⟨.ok ⟨⟨true, some 3, none⟩, [], 1⟩, .ok (some 9)⟩,
    h14 1 0 (fun n => toString n) [] ⟨.ok "bh", .ok ⟨1, none, 1⟩⟩,
    h15 "h1" 0 (fun n => toString n) [] (.ok ⟨1, 1, none, 1⟩),
    h16 0 "T" [] ⟨.ok (some 1), .ok (some 1), .ok (some 1), .ok (some 2)⟩,
    h17 "2021-01-01" 0 [] (.error .transport),
    h18 0 [] (.ok ⟨some 1, some 1, some 1, none⟩),
    h19 0 (fun n => toString n) [] (.ok (some 5)),
    h20 0 [] (.ok [("1", 2)])⟩
